import Mathlib

/-!
Shallow embedding of the `@sh41/mcp-utils` MCP server lifecycle controller
(`buildMCPServer` and its helpers) and the HTTP request handling layer.

Effectful collaborator calls (stdio connect, free-port discovery, the HTTP
bind, the close calls on the engine and on per-request transports, event
listeners that may throw) are modeled by explicit environments recording the
outcome of each awaited step.  An async operation either terminates normally,
terminates by throwing, or never settles (its promise neither resolves nor
rejects); the three cases are the `Outcome` type.
-/

namespace McpUtils

/-- Transport kinds, from `McpServerOptions.transport`. -/
inductive TransportKind
  | stdio
  | http
deriving DecidableEq, Repr

/-- Errors are opaque values; the code never inspects them. -/
abbrev Err := String

/-- A registered tool; schemas and handler are opaque to the controller, only
the name and description travel through it. -/
structure AnyTool where
  name : String
  description : String
deriving DecidableEq, Repr

/-- The `error` member of a JSON-RPC 2.0 error response. -/
structure JsonRpcErrorBody where
  code : Int
  message : String
deriving DecidableEq, Repr

/-- A JSON-RPC 2.0 error response; `id := none` models the JSON `null`. -/
structure JsonRpcErrorResponse where
  jsonrpc : String
  error : JsonRpcErrorBody
  id : Option Nat
deriving DecidableEq, Repr

/-- `createJsonRpcError` from the source: builds a JSON-RPC 2.0 error body. -/
def createJsonRpcError (code : Int) (message : String) : JsonRpcErrorResponse :=
  { jsonrpc := "2.0", error := { code := code, message := message }, id := none }

/-- `McpServerConnectionInfo`: tagged union over the transport kinds. -/
inductive ConnectionInfo
  | http (host : String) (port : Nat)
  | stdio
deriving DecidableEq, Repr

/-- The transport tag of a `ConnectionInfo` value. -/
def ConnectionInfo.kind : ConnectionInfo → TransportKind
  | .http _ _ => .http
  | .stdio => .stdio

/-- The events of `McpServerEvents`.  Request/response payloads are dropped;
the error payload is kept. -/
inductive Event
  | serverStarting
  | serverStartError (e : Err)
  | serverReady (ci : ConnectionInfo) (tools : List AnyTool)
  | serverStopping
  | serverStopped
  | requestReceived
  | requestFailed (e : Err)
  | requestCompleted
deriving DecidableEq, Repr

/-- `McpServerOptions` (name/version/description are carried but never branch
the control flow). -/
structure McpServerOptions where
  name : String
  version : String
  description : Option String
  tools : List AnyTool
  transport : TransportKind
  port : Option Nat
deriving DecidableEq, Repr

/-- The protocol engine (`McpServer` from the SDK), modeled by the list of
tools registered on it, in registration order. -/
abbrev Engine := List AnyTool

/-- `pushToolsToServer`: registers each tool with the engine, in order. -/
def pushToolsToServer (server : Engine) (tools : List AnyTool) : Engine :=
  server ++ tools

/-- The closure state of one `buildMCPServer` instance: the five mutable
variables captured by the returned methods.  `httpServer` records whether the
listening-socket handle is held (`true` = the `Server` object is assigned). -/
structure ServerState where
  mcpServer : Option Engine
  httpServer : Bool
  registeredTools : List AnyTool
  isServerRunning : Bool
  connectionInfo : Option ConnectionInfo
deriving DecidableEq, Repr

/-- `buildMCPServer(options)`: the initial closure state. -/
def buildMCPServer (options : McpServerOptions) : ServerState :=
  { mcpServer := none
    httpServer := false
    registeredTools := options.tools
    isServerRunning := false
    connectionInfo := none }

/-- `registerTools(tools)`: if the engine is constructed, push the tools into
it; in all cases append them to the registry snapshot. -/
def registerTools (tools : List AnyTool) (s : ServerState) : ServerState :=
  let s1 :=
    match s.mcpServer with
    | some eng => { s with mcpServer := some (pushToolsToServer eng tools) }
    | none => s
  { s1 with registeredTools := s1.registeredTools ++ tools }

/-- `isRunning()`. -/
def isRunning (s : ServerState) : Bool := s.isServerRunning

/-- The record returned by `getStatus()`. -/
structure Status where
  running : Bool
  tools : List AnyTool
  connectionInfo : Option ConnectionInfo
deriving DecidableEq, Repr

/-- `getStatus()`: running flag, a copy of the tool list, the connection
info. -/
def getStatus (s : ServerState) : Status :=
  { running := s.isServerRunning
    tools := s.registeredTools
    connectionInfo := s.connectionInfo }

/-- Result of one async method call: resolves with a new state, rejects with an
error (state as left at the throw), or never settles (state as left when the
pending await was entered).  The event list records the events emitted on the
instance emitter during the call, in order. -/
inductive Outcome
  | ok (s : ServerState) (events : List Event)
  | thrown (e : Err) (s : ServerState) (events : List Event)
  | pending (s : ServerState) (events : List Event)
deriving DecidableEq, Repr

/-- The state component of an `Outcome`. -/
def Outcome.state : Outcome → ServerState
  | .ok s _ => s
  | .thrown _ s _ => s
  | .pending s _ => s

/-- The events component of an `Outcome`. -/
def Outcome.events : Outcome → List Event
  | .ok _ evs => evs
  | .thrown _ _ evs => evs
  | .pending _ evs => evs

/-- Outcomes of the effectful steps `start` may await:
`mcpServer.connect(new StdioServerTransport())`, `findFreePort()`, and the
`expressApp.listen` bind. -/
structure StartEnv where
  stdioConnect : Except Err Unit
  findFreePort : Except Err Nat
  listen : Except Err Unit
deriving Repr

/-- `start()`.  Mirrors the source line by line: the already-running guard
returns before any event; the try block constructs the engine and pushes the
registry snapshot into it, then branches on the transport kind.  The catch
block emits `serverStartError` and rethrows.  In the http branch the promise
around `expressApp.listen` is given only a `resolve` continuation: when the
bind fails, the `error` event on the server object has no listener, so the
awaited promise never settles and `start` never returns — the `.pending`
outcome.  The socket handle was already assigned (`httpServer := true`) by the
synchronous part of the executor. -/
def start (options : McpServerOptions) (env : StartEnv) (s : ServerState) :
    Outcome :=
  if s.isServerRunning then
    .ok s []
  else
    let evs := [Event.serverStarting]
    let s := { s with mcpServer := some (pushToolsToServer [] s.registeredTools) }
    match options.transport with
    | .stdio =>
      match env.stdioConnect with
      | .error e => .thrown e s (evs ++ [Event.serverStartError e])
      | .ok _ =>
        let ci := ConnectionInfo.stdio
        let s := { s with connectionInfo := some ci, isServerRunning := true }
        .ok s (evs ++ [Event.serverReady ci s.registeredTools])
    | .http =>
      match (match options.port with
             | some p => Except.ok p
             | none => env.findFreePort) with
      | .error e => .thrown e s (evs ++ [Event.serverStartError e])
      | .ok actualPort =>
        let s := { s with httpServer := true }
        match env.listen with
        | .error _ => .pending s evs
        | .ok _ =>
          let ci := ConnectionInfo.http "localhost" actualPort
          let s := { s with connectionInfo := some ci, isServerRunning := true }
          .ok s (evs ++ [Event.serverReady ci s.registeredTools])

/-- Outcome of the one awaited step of `stop` that can reject:
`mcpServer.close()`.  The socket close wraps `httpServer.close(cb)` in a
promise whose callback always resolves, so that step cannot reject. -/
structure StopEnv where
  mcpClose : Except Err Unit
deriving Repr

/-- The individual actions `stop` performs, in program order, for trace-level
properties. -/
inductive StopAction
  | emitStopping
  | closeHttpServer
  | nullHttpServer
  | closeMcpServer
  | nullMcpServer
  | clearRunning
  | clearConnectionInfo
  | emitStopped
deriving DecidableEq, Repr

/-- `stop()` together with its action trace.  Mirrors the source: the
not-running guard returns before any event; otherwise emit `serverStopping`,
then in the try block close and null the socket handle (when held), close and
null the engine (when held), clear the running flag and the connection info,
and emit `serverStopped`.  The catch block logs and rethrows; it mutates
nothing, so a rejection of `mcpServer.close()` leaves the running flag and
connection info as they were. -/
def stopT (env : StopEnv) (s : ServerState) : Outcome × List StopAction :=
  if !s.isServerRunning then
    (.ok s [], [])
  else
    let evs := [Event.serverStopping]
    let (s, tr) :=
      if s.httpServer then
        ({ s with httpServer := false },
         [StopAction.emitStopping, StopAction.closeHttpServer,
          StopAction.nullHttpServer])
      else (s, [StopAction.emitStopping])
    match s.mcpServer with
    | some _ =>
      match env.mcpClose with
      | .error e => (.thrown e s evs, tr ++ [StopAction.closeMcpServer])
      | .ok _ =>
        let s := { s with mcpServer := none, isServerRunning := false,
                          connectionInfo := none }
        (.ok s (evs ++ [Event.serverStopped]),
         tr ++ [StopAction.closeMcpServer, StopAction.nullMcpServer,
                StopAction.clearRunning, StopAction.clearConnectionInfo,
                StopAction.emitStopped])
    | none =>
      let s := { s with isServerRunning := false, connectionInfo := none }
      (.ok s (evs ++ [Event.serverStopped]),
       tr ++ [StopAction.clearRunning, StopAction.clearConnectionInfo,
              StopAction.emitStopped])

/-- `stop()`: the outcome alone. -/
def stop (env : StopEnv) (s : ServerState) : Outcome := (stopT env s).1

/-- The action trace of one `stop()` call. -/
def stopTrace (env : StopEnv) (s : ServerState) : List StopAction :=
  (stopT env s).2

/-- `restart()`: sequential `stop` then `start`; a `stop` rejection aborts the
restart. -/
def restart (options : McpServerOptions) (senv : StopEnv) (stenv : StartEnv)
    (s : ServerState) : Outcome :=
  match stop senv s with
  | .ok s1 evs1 =>
    match start options stenv s1 with
    | .ok s2 evs2 => .ok s2 (evs1 ++ evs2)
    | .thrown e s2 evs2 => .thrown e s2 (evs1 ++ evs2)
    | .pending s2 evs2 => .pending s2 (evs1 ++ evs2)
  | r => r

/-- Outcomes of the two awaited steps of the per-request `close` handler:
`transport.close()` and then `server.close()`. -/
structure CloseEnv where
  transportClose : Except Err Unit
  serverClose : Except Err Unit
deriving Repr

/-- The first error of the close-teardown chain, if any: a rejection of
`transport.close()`, else a rejection of `server.close()`. -/
def closeFailure (env : CloseEnv) : Option Err :=
  match env.transportClose with
  | .error e => some e
  | .ok _ =>
    match env.serverClose with
    | .error e => some e
    | .ok _ => none

/-- Events emitted by the handler registered with `response.on("close", ...)`:
`transport.close().then(() => server.close()).catch(e => emit requestFailed)
.finally(() => emit requestCompleted)`.  The `catch` continuation fires on the
first rejection of the chain; the `finally` continuation fires in every
case. -/
def closeHandlerEvents (env : CloseEnv) : List Event :=
  match env.transportClose with
  | .error e => [Event.requestFailed e, Event.requestCompleted]
  | .ok _ =>
    match env.serverClose with
    | .error e => [Event.requestFailed e, Event.requestCompleted]
    | .ok _ => [Event.requestCompleted]

/-- Outcomes of the steps of the POST handler body that can throw, plus the
`response.headersSent` flag as observed by the catch block.  A throwing
`requestReceived` listener is a failure of the emit step. -/
structure RequestEnv where
  emitReceived : Except Err Unit
  serverConnect : Except Err Unit
  handleRequest : Except Err Unit
  headersSent : Bool
deriving Repr

/-- The first error escaping the try block of the POST handler, if any. -/
def handlerError (env : RequestEnv) : Option Err :=
  match env.emitReceived with
  | .error e => some e
  | .ok _ =>
    match env.serverConnect with
    | .error e => some e
    | .ok _ =>
      match env.handleRequest with
      | .error e => some e
      | .ok _ => none

/-- What one run of the POST handler did: the events emitted on the instance
emitter, whether a fresh per-request transport was constructed, whether the
close handler was registered on the response, and the error response written
by the catch block (status code and JSON-RPC body), if any. -/
structure HandlerResult where
  events : List Event
  freshTransport : Bool
  closeHandlerRegistered : Bool
  errorResponse : Option (Nat × JsonRpcErrorResponse)
deriving DecidableEq, Repr

/-- `createMcpRequestHandler`: the body of the POST /mcp handler.  Emit
`requestReceived`; construct a new session-less transport; register the close
handler; `await server.connect(transport)`; `await transport.handleRequest`.
The catch block emits `requestFailed` and, when `response.headersSent` is
still false, writes HTTP 500 with the JSON-RPC internal-error body. -/
def createMcpRequestHandler (env : RequestEnv) : HandlerResult :=
  let errorResponse : Option (Nat × JsonRpcErrorResponse) :=
    if env.headersSent then none
    else some (500, createJsonRpcError (-32603) "Internal server error")
  match env.emitReceived with
  | .error e =>
    { events := [Event.requestReceived, Event.requestFailed e]
      freshTransport := false
      closeHandlerRegistered := false
      errorResponse := errorResponse }
  | .ok _ =>
    match env.serverConnect with
    | .error e =>
      { events := [Event.requestReceived, Event.requestFailed e]
        freshTransport := true
        closeHandlerRegistered := true
        errorResponse := errorResponse }
    | .ok _ =>
      match env.handleRequest with
      | .error e =>
        { events := [Event.requestReceived, Event.requestFailed e]
          freshTransport := true
          closeHandlerRegistered := true
          errorResponse := errorResponse }
      | .ok _ =>
        { events := [Event.requestReceived]
          freshTransport := true
          closeHandlerRegistered := true
          errorResponse := none }

/-- HTTP request methods. -/
inductive HttpMethod
  | GET
  | POST
  | PUT
  | DELETE
  | PATCH
  | OPTIONS
  | HEAD
deriving DecidableEq, Repr

/-- The handlers the http branch of `start` installs on the express app. -/
inductive RouteHandler
  | mcpRequest
  | unsupportedMethod (method : String)
deriving DecidableEq, Repr

/-- The /mcp route table installed by the http branch of `start`:
`expressApp.post`, `expressApp.get`, `expressApp.delete` — and nothing else.
A method with no installed handler falls through to the framework default. -/
def mcpAppRoute : HttpMethod → Option RouteHandler
  | .POST => some RouteHandler.mcpRequest
  | .GET => some (RouteHandler.unsupportedMethod "GET")
  | .DELETE => some (RouteHandler.unsupportedMethod "DELETE")
  | _ => none

/-- `createUnsupportedMethodHandler(method)`: logs a warning and responds
HTTP 405 with the JSON-RPC method-not-allowed body. -/
def createUnsupportedMethodHandler (method : String) :
    Nat × JsonRpcErrorResponse :=
  (405, createJsonRpcError (-32000) "Method not allowed")

/-- HTTP-mode request isolation model: the shared protocol engine (the one
`mcpServer` the handler closes over) plus the per-request transport instances
created so far, indexed by arrival order; `true` = open. -/
structure HttpWorld where
  serverOpen : Bool
  transports : List Bool
deriving DecidableEq, Repr

/-- Arrival of a POST request: a brand-new session-less transport instance is
constructed (open), extending the world; the index of the new request is
returned. -/
def requestArrives (w : HttpWorld) : HttpWorld × Nat :=
  ({ w with transports := w.transports ++ [true] }, w.transports.length)

/-- The protocol-handling context of request `i`: its own transport instance
together with the engine handle the handler connected it to — which in the
source is the shared `mcpServer`. -/
def requestContext (w : HttpWorld) (i : Nat) : Option Bool × Bool :=
  (w.transports[i]?, w.serverOpen)

/-- The teardown run by the close handler of request `i`: `transport.close()`
closes the transport owned by request `i`, and `server.close()` closes the
shared engine. -/
def closeTeardown (w : HttpWorld) (i : Nat) : HttpWorld :=
  { serverOpen := false
    transports := w.transports.set i false }

/-- The per-operation invariant of claim C10: whenever the running flag is
set, the connection info is present and its transport tag is the transport
kind fixed at construction. -/
def connInfoInvariant (options : McpServerOptions) (s : ServerState) : Prop :=
  s.isServerRunning = true →
    ∃ ci, s.connectionInfo = some ci ∧ ci.kind = options.transport

/-- States reachable from `buildMCPServer(options)` by any sequence of
`registerTools`, `start` and `stop` calls, with arbitrary outcomes of the
awaited effectful steps (`restart` is the composition of a stop step and a
start step). -/
inductive Reachable (options : McpServerOptions) : ServerState → Prop
  | init : Reachable options (buildMCPServer options)
  | register (ts : List AnyTool) {s : ServerState} :
      Reachable options s → Reachable options (registerTools ts s)
  | startStep (env : StartEnv) {s : ServerState} :
      Reachable options s → Reachable options (Outcome.state (start options env s))
  | stopStep (env : StopEnv) {s : ServerState} :
      Reachable options s → Reachable options (Outcome.state (stop env s))

/-- Concrete fixture: the calculator tool of the README usage example. -/
def calculatorTool : AnyTool :=
  { name := "calculator"
    description := "Performs basic arithmetic operations" }

/-- Concrete fixture: http options with a fixed port, as in spec Scenario A. -/
def optionsHttp : McpServerOptions :=
  { name := "hello-mcp-world"
    version := "1.0.0"
    description := none
    tools := []
    transport := .http
    port := some 4000 }

/-- Concrete fixture: stdio options. -/
def optionsStdio : McpServerOptions :=
  { name := "hello-mcp-world"
    version := "1.0.0"
    description := none
    tools := []
    transport := .stdio
    port := none }

/-- Concrete fixture: a start environment in which every awaited step
succeeds. -/
def envStartOk : StartEnv :=
  { stdioConnect := .ok ()
    findFreePort := .ok 4000
    listen := .ok () }

/-- Concrete fixture: the running http-mode state reached by a successful
`start` of `optionsHttp`. -/
def sRunHttp : ServerState :=
  { mcpServer := some []
    httpServer := true
    registeredTools := []
    isServerRunning := true
    connectionInfo := some (.http "localhost" 4000) }

/-- Concrete fixture: an http world with the shared engine open and two
in-flight requests, both transports open. -/
def twoRequestWorld : HttpWorld :=
  { serverOpen := true
    transports := [true, true] }

/-! Helper lemmas shared by several claims. -/

/-- `registerTools` does not touch the running flag. -/
theorem registerTools_isServerRunning (ts : List AnyTool) (s : ServerState) :
    (registerTools ts s).isServerRunning = s.isServerRunning := by
  cases hm : s.mcpServer <;> simp [registerTools, hm]

/-- `registerTools` does not touch the connection info. -/
theorem registerTools_connectionInfo (ts : List AnyTool) (s : ServerState) :
    (registerTools ts s).connectionInfo = s.connectionInfo := by
  cases hm : s.mcpServer <;> simp [registerTools, hm]

/-- `registerTools` appends to the registry snapshot. -/
theorem registerTools_registeredTools (ts : List AnyTool) (s : ServerState) :
    (registerTools ts s).registeredTools = s.registeredTools ++ ts := by
  cases hm : s.mcpServer <;> simp [registerTools, hm]

/-! Theorems for the claims. -/

/-- C2: with the port occupied, the `expressApp.listen` bind fails; `start` on
a fresh http-mode controller then never settles: the outcome is `pending`, no
`serverStartError` event is emitted, no error is re-raised to the caller, and
the already-assigned socket handle (`httpServer = true`) is not closed — the
promise wrapping the bind was given only a `resolve` continuation, so the bind
error is an unhandled `error` event.  This contradicts the claim that every
failure during `start` emits the event, re-raises the error, and closes any
socket opened before the failure. -/
theorem C2_bind_failure_hangs :
    start optionsHttp
        { stdioConnect := .ok (), findFreePort := .ok 4000,
          listen := .error "EADDRINUSE" }
        (buildMCPServer optionsHttp) =
      Outcome.pending
        { mcpServer := some []
          httpServer := true
          registeredTools := []
          isServerRunning := false
          connectionInfo := none }
        [Event.serverStarting] ∧
    Event.serverStartError "EADDRINUSE" ∉
      (start optionsHttp
        { stdioConnect := .ok (), findFreePort := .ok 4000,
          listen := .error "EADDRINUSE" }
        (buildMCPServer optionsHttp)).events := by
  exact ⟨rfl, by decide⟩

/-- C3 counterexample: from the running http-mode state, when
`mcpServer.close()` rejects, `stop` re-raises the error, but the running flag
is still set: `isRunning()` returns true after the failed `stop`,
contradicting the claim that the state is left non-running. -/
theorem C3_counterexample :
    stop { mcpClose := .error "boom" } sRunHttp =
      Outcome.thrown "boom"
        { mcpServer := some []
          httpServer := false
          registeredTools := []
          isServerRunning := true
          connectionInfo := some (.http "localhost" 4000) }
        [Event.serverStopping] ∧
    isRunning
      { mcpServer := some []
        httpServer := false
        registeredTools := []
        isServerRunning := true
        connectionInfo := some (.http "localhost" 4000) } = true :=
  ⟨rfl, rfl⟩

/-- C3 amended: if the engine-close step of `stop` rejects, the error is
re-raised to the caller (the logging side effect is not modeled), and the
controller keeps the running flag set and the connection info and engine
handle unchanged: `isRunning()` returns true after the failed `stop`, because
the flag is cleared only after both teardown steps succeed. -/
theorem C3_stop_failure (s : ServerState) (env : StopEnv) (e : Err)
    (eng : Engine) (hrun : s.isServerRunning = true)
    (heng : s.mcpServer = some eng) (hclose : env.mcpClose = .error e) :
    ∃ s2, stop env s = .thrown e s2 [Event.serverStopping] ∧
      s2.isServerRunning = true ∧ s2.connectionInfo = s.connectionInfo ∧
      s2.mcpServer = s.mcpServer := by
  cases hh : s.httpServer with
  | true =>
    refine ⟨{ s with httpServer := false }, ?_, hrun, rfl, rfl⟩
    simp [stop, stopT, hrun, hh, heng, hclose]
  | false =>
    refine ⟨s, ?_, hrun, rfl, rfl⟩
    simp [stop, stopT, hrun, hh, heng, hclose]

/-- C3 witness: the amended theorem at the concrete running http-mode state. -/
theorem C3_stop_failure_witness :
    ∃ s2, stop { mcpClose := .error "kaput" } sRunHttp =
        .thrown "kaput" s2 [Event.serverStopping] ∧
      s2.isServerRunning = true ∧
      s2.connectionInfo = sRunHttp.connectionInfo ∧
      s2.mcpServer = sRunHttp.mcpServer :=
  C3_stop_failure sRunHttp { mcpClose := .error "kaput" } "kaput" [] rfl rfl rfl

/-- C4 counterexample: on a successful `stop` from the running http-mode
state, the socket handle is nulled (`nullHttpServer`) strictly before the
engine close (`closeMcpServer`): it occurs in the prefix of the action trace
preceding `closeMcpServer`.  So the held handles are not nulled only after
both teardown steps succeed, as the claim states. -/
theorem C4_counterexample :
    stopTrace { mcpClose := .ok () } sRunHttp =
      [StopAction.emitStopping, StopAction.closeHttpServer,
       StopAction.nullHttpServer, StopAction.closeMcpServer,
       StopAction.nullMcpServer, StopAction.clearRunning,
       StopAction.clearConnectionInfo, StopAction.emitStopped] ∧
    StopAction.nullHttpServer ∈
      (stopTrace { mcpClose := .ok () } sRunHttp).takeWhile
        (fun a => a != StopAction.closeMcpServer) := by
  decide

/-- C4 amended: a successful `stop` from a running http-mode state closes the
socket first, nulls the socket handle immediately, then closes the engine,
and only after the engine close succeeds nulls the engine handle, clears the
running flag and the connection info, and emits `serverStopped`; afterwards
`getStatus().connectionInfo` is undefined and `isRunning()` is false. -/
theorem C4_stop_success (s : ServerState) (env : StopEnv) (eng : Engine)
    (hrun : s.isServerRunning = true) (hh : s.httpServer = true)
    (heng : s.mcpServer = some eng) (hclose : env.mcpClose = .ok ()) :
    stop env s =
      .ok { s with mcpServer := none, httpServer := false,
                   isServerRunning := false, connectionInfo := none }
        [Event.serverStopping, Event.serverStopped] ∧
    stopTrace env s =
      [StopAction.emitStopping, StopAction.closeHttpServer,
       StopAction.nullHttpServer, StopAction.closeMcpServer,
       StopAction.nullMcpServer, StopAction.clearRunning,
       StopAction.clearConnectionInfo, StopAction.emitStopped] ∧
    (getStatus (Outcome.state (stop env s))).connectionInfo = none ∧
    isRunning (Outcome.state (stop env s)) = false := by
  simp [stop, stopTrace, stopT, getStatus, isRunning, Outcome.state,
        hrun, hh, heng, hclose]

/-- C4 witness: the amended theorem at the concrete running http-mode state. -/
theorem C4_stop_success_witness :
    (getStatus (Outcome.state (stop { mcpClose := .ok () } sRunHttp))).connectionInfo
      = none ∧
    isRunning (Outcome.state (stop { mcpClose := .ok () } sRunHttp)) = false :=
  ⟨(C4_stop_success sRunHttp { mcpClose := .ok () } [] rfl rfl rfl rfl).2.2.1,
   (C4_stop_success sRunHttp { mcpClose := .ok () } [] rfl rfl rfl rfl).2.2.2⟩

/-- C5: redundant lifecycle calls are no-ops: a second `start` while the
running flag is set returns immediately with the state unchanged (no bind is
attempted, no event is emitted, the connection info is unchanged), and `stop`
while `isRunning()` is false returns immediately with the state unchanged, no
events, and no exception. -/
theorem C5_idempotent (options : McpServerOptions) (env : StartEnv)
    (senv : StopEnv) (s : ServerState) :
    (s.isServerRunning = true → start options env s = .ok s []) ∧
    (s.isServerRunning = false → stop senv s = .ok s []) := by
  constructor
  · intro h
    simp [start, h]
  · intro h
    simp [stop, stopT, h]

/-- C5 witness: the running http-mode state and the fresh idle state. -/
theorem C5_idempotent_witness :
    start optionsHttp envStartOk sRunHttp = .ok sRunHttp [] ∧
    stop { mcpClose := .ok () } (buildMCPServer optionsHttp) =
      .ok (buildMCPServer optionsHttp) [] :=
  ⟨(C5_idempotent optionsHttp envStartOk { mcpClose := .ok () } sRunHttp).1 rfl,
   (C5_idempotent optionsHttp envStartOk { mcpClose := .ok () }
      (buildMCPServer optionsHttp)).2 rfl⟩

/-- C7: for every outcome of the two nested teardown steps, the close handler
emits `requestCompleted` exactly once, and when either step fails the emitted
events are exactly `requestFailed` with that error followed by
`requestCompleted`. -/
theorem C7_completion_exactly_once (env : CloseEnv) :
    (closeHandlerEvents env).count Event.requestCompleted = 1 ∧
    closeHandlerEvents env =
      (match closeFailure env with
       | some e => [Event.requestFailed e, Event.requestCompleted]
       | none => [Event.requestCompleted]) := by
  obtain ⟨tc, sc⟩ := env
  cases tc <;> cases sc <;>
    simp [closeHandlerEvents, closeFailure, List.count_cons, List.count_nil]

/-- C9 counterexample: PUT is a non-POST verb, yet the app installs no handler
for it on the /mcp endpoint — such a request falls through to the framework
default instead of receiving the claimed HTTP 405 method-not-allowed
response. -/
theorem C9_counterexample :
    HttpMethod.PUT ≠ HttpMethod.POST ∧ mcpAppRoute HttpMethod.PUT = none := by
  decide

/-- C9 amended: exactly GET and DELETE are rejected with HTTP 405 and the
exact JSON-RPC method-not-allowed body, without reaching the isolation layer;
POST maps to the MCP request handler; every other verb has no installed
handler on the endpoint and falls through to the framework default. -/
theorem C9_amended_routes :
    mcpAppRoute HttpMethod.GET = some (RouteHandler.unsupportedMethod "GET") ∧
    mcpAppRoute HttpMethod.DELETE
      = some (RouteHandler.unsupportedMethod "DELETE") ∧
    mcpAppRoute HttpMethod.POST = some RouteHandler.mcpRequest ∧
    (∀ m : String, createUnsupportedMethodHandler m =
      (405, { jsonrpc := "2.0",
              error := { code := -32000, message := "Method not allowed" },
              id := none })) ∧
    (∀ m : HttpMethod, m ≠ HttpMethod.POST → m ≠ HttpMethod.GET →
      m ≠ HttpMethod.DELETE → mcpAppRoute m = none) := by
  refine ⟨rfl, rfl, rfl, fun m => rfl, ?_⟩
  intro m h1 h2 h3
  cases m
  · exact absurd rfl h2
  · exact absurd rfl h1
  · rfl
  · exact absurd rfl h3
  · rfl
  · rfl
  · rfl

/-- C9 witness: the amended theorem applied at PATCH. -/
theorem C9_amended_witness : mcpAppRoute HttpMethod.PATCH = none :=
  C9_amended_routes.2.2.2.2 HttpMethod.PATCH (by decide) (by decide) (by decide)

/-- C1 counterexample: with the shared engine open and two in-flight requests,
running the close teardown of request 0 changes the protocol-handling context
of request 1: the engine handle the handler connected request 1 to is the one
shared `mcpServer`, and `server.close()` in the close handler of request 0
closes it. -/
theorem C1_counterexample :
    (0 : Nat) ≠ 1 ∧
    requestContext (closeTeardown twoRequestWorld 0) 1 ≠
      requestContext twoRequestWorld 1 := by
  decide

/-- C1 amended: each inbound request constructs a brand-new session-less
transport instance (at a fresh index, open, leaving every earlier transport
untouched), and the close teardown of request `i` closes only the transport of
request `i` among the per-request transports; but the teardown also closes the
shared protocol engine, which is part of the protocol-handling context of
every other in-flight request. -/
theorem C1_isolation (w : HttpWorld) (i j : Nat) :
    (requestArrives w).1.transports[(requestArrives w).2]? = some true ∧
    (∀ k : Nat, k < w.transports.length →
      (requestArrives w).1.transports[k]? = w.transports[k]?) ∧
    (i ≠ j → (closeTeardown w i).transports[j]? = w.transports[j]?) ∧
    (closeTeardown w i).serverOpen = false := by
  refine ⟨?_, ?_, ?_, rfl⟩
  · simp [requestArrives, List.getElem?_concat_length]
  · intro k hk
    simp [requestArrives, List.getElem?_append_left hk]
  · intro hij
    simp [closeTeardown, List.getElem?_set_ne hij]

/-- C1 witness: the amended theorem at the two-request world. -/
theorem C1_isolation_witness :
    (closeTeardown twoRequestWorld 0).transports[1]? =
      twoRequestWorld.transports[1]? ∧
    (requestArrives twoRequestWorld).1.transports[0]? =
      twoRequestWorld.transports[0]? :=
  ⟨(C1_isolation twoRequestWorld 0 1).2.2.1 (by decide),
   (C1_isolation twoRequestWorld 0 1).2.1 0 (by decide)⟩

/-- C6: `registerTools` appends the tools to the registry snapshot in call
order; exactly when the engine instance is constructed it additionally pushes
them into the live engine; the appended tools appear in `getStatus().tools`;
and tools registered before `start` end up in the engine a subsequent
successful `start` constructs — no restart is needed in either case. -/
theorem C6_registerTools (s : ServerState) (ts : List AnyTool) :
    (registerTools ts s).registeredTools = s.registeredTools ++ ts ∧
    (registerTools ts s).mcpServer =
      Option.map (fun eng => pushToolsToServer eng ts) s.mcpServer ∧
    (getStatus (registerTools ts s)).tools = s.registeredTools ++ ts ∧
    (∀ (options : McpServerOptions) (env : StartEnv) (s2 : ServerState)
       (evs : List Event), s.isServerRunning = false →
       start options env (registerTools ts s) = .ok s2 evs →
       s2.mcpServer = some (s.registeredTools ++ ts)) := by
  refine ⟨registerTools_registeredTools ts s, ?_, ?_, ?_⟩
  · cases hm : s.mcpServer <;> simp [registerTools, hm, pushToolsToServer]
  · simp [getStatus, registerTools_registeredTools]
  · intro options env s2 evs hrun heq
    have hr1 : (registerTools ts s).isServerRunning = false := by
      rw [registerTools_isServerRunning, hrun]
    have hreg := registerTools_registeredTools ts s
    cases hT : options.transport with
    | stdio =>
      cases hc : env.stdioConnect with
      | error e => simp [start, hr1, hT, hc] at heq
      | ok u =>
        simp [start, hr1, hT, hc] at heq
        rw [← heq.1]
        simp [pushToolsToServer, hreg]
    | http =>
      cases hp : options.port with
      | some p =>
        cases hl : env.listen with
        | error e => simp [start, hr1, hT, hp, hl] at heq
        | ok u =>
          simp [start, hr1, hT, hp, hl] at heq
          rw [← heq.1]
          simp [pushToolsToServer, hreg]
      | none =>
        cases hf : env.findFreePort with
        | error e => simp [start, hr1, hT, hp, hf] at heq
        | ok p =>
          cases hl : env.listen with
          | error e => simp [start, hr1, hT, hp, hf, hl] at heq
          | ok u =>
            simp [start, hr1, hT, hp, hf, hl] at heq
            rw [← heq.1]
            simp [pushToolsToServer, hreg]

/-- C6 witness: registering the calculator tool on a fresh stdio controller,
then starting it. -/
theorem C6_registerTools_witness :
    (getStatus (registerTools [calculatorTool] (buildMCPServer optionsStdio))).tools
      = (buildMCPServer optionsStdio).registeredTools ++ [calculatorTool] ∧
    ({ mcpServer := some [calculatorTool]
       httpServer := false
       registeredTools := [calculatorTool]
       isServerRunning := true
       connectionInfo := some ConnectionInfo.stdio } : ServerState).mcpServer
      = some ((buildMCPServer optionsStdio).registeredTools ++ [calculatorTool]) :=
  ⟨(C6_registerTools (buildMCPServer optionsStdio) [calculatorTool]).2.2.1,
   (C6_registerTools (buildMCPServer optionsStdio) [calculatorTool]).2.2.2
     optionsStdio envStartOk _ _ rfl rfl⟩

/-- C8: whenever an exception escapes the try block of the POST handler (a
throwing `requestReceived` listener, a failing engine connect, or a failing
request forwarding), a `requestFailed` event with that error is emitted; the
handler writes HTTP 500 with the exact JSON-RPC internal-error body when no
response headers have been sent yet, and writes nothing once headers have been
sent. -/
theorem C8_handler_failure (env : RequestEnv) (e : Err)
    (h : handlerError env = some e) :
    Event.requestFailed e ∈ (createMcpRequestHandler env).events ∧
    (createMcpRequestHandler env).errorResponse =
      (if env.headersSent then none
       else some (500, { jsonrpc := "2.0",
                         error := { code := -32603,
                                    message := "Internal server error" },
                         id := none })) := by
  obtain ⟨er, scn, hr, hs⟩ := env
  cases er with
  | error e2 =>
    simp [handlerError] at h
    subst h
    simp [createMcpRequestHandler, createJsonRpcError]
  | ok u =>
    cases scn with
    | error e2 =>
      simp [handlerError] at h
      subst h
      simp [createMcpRequestHandler, createJsonRpcError]
    | ok u2 =>
      cases hr with
      | error e2 =>
        simp [handlerError] at h
        subst h
        simp [createMcpRequestHandler, createJsonRpcError]
      | ok u3 => simp [handlerError] at h

/-- C8 witness: a failing request forwarding with headers not yet sent. -/
theorem C8_handler_failure_witness :
    Event.requestFailed "fwd failed" ∈
      (createMcpRequestHandler
        { emitReceived := .ok (), serverConnect := .ok (),
          handleRequest := .error "fwd failed", headersSent := false }).events ∧
    (createMcpRequestHandler
        { emitReceived := .ok (), serverConnect := .ok (),
          handleRequest := .error "fwd failed", headersSent := false }).errorResponse =
      (if ({ emitReceived := .ok (), serverConnect := .ok (),
             handleRequest := .error "fwd failed",
             headersSent := false } : RequestEnv).headersSent then none
       else some (500, { jsonrpc := "2.0",
                         error := { code := -32603,
                                    message := "Internal server error" },
                         id := none })) :=
  C8_handler_failure
    { emitReceived := .ok (), serverConnect := .ok (),
      handleRequest := .error "fwd failed", headersSent := false }
    "fwd failed" rfl

/-- Preservation of the C10 invariant by one `start` call, whatever its
outcome. -/
theorem start_preserves_connInfoInv (options : McpServerOptions)
    (env : StartEnv) (s : ServerState) (ih : connInfoInvariant options s) :
    connInfoInvariant options (Outcome.state (start options env s)) := by
  cases hr : s.isServerRunning with
  | true => simpa [start, hr, Outcome.state] using ih
  | false =>
    intro hrun
    cases hT : options.transport with
    | stdio =>
      cases hc : env.stdioConnect with
      | error e => simp_all [start, Outcome.state]
      | ok u => simp_all [start, Outcome.state, ConnectionInfo.kind]
    | http =>
      cases hp : options.port with
      | some p =>
        cases hl : env.listen with
        | error e => simp_all [start, Outcome.state]
        | ok u => simp_all [start, Outcome.state, ConnectionInfo.kind]
      | none =>
        cases hf : env.findFreePort with
        | error e => simp_all [start, Outcome.state]
        | ok p =>
          cases hl : env.listen with
          | error e => simp_all [start, Outcome.state]
          | ok u => simp_all [start, Outcome.state, ConnectionInfo.kind]

/-- Preservation of the C10 invariant by one `stop` call, whatever its
outcome. -/
theorem stop_preserves_connInfoInv (options : McpServerOptions)
    (env : StopEnv) (s : ServerState) (ih : connInfoInvariant options s) :
    connInfoInvariant options (Outcome.state (stop env s)) := by
  cases hr : s.isServerRunning with
  | false => simpa [stop, stopT, hr, Outcome.state] using ih
  | true =>
    intro hrun
    obtain ⟨ci, hci, hk⟩ := ih hr
    cases hh : s.httpServer with
    | true =>
      cases hm : s.mcpServer with
      | some eng =>
        cases hc : env.mcpClose with
        | error e =>
          refine ⟨ci, ?_, hk⟩
          simp [stop, stopT, hr, hh, hm, hc, Outcome.state, hci]
        | ok u => simp_all [stop, stopT, Outcome.state]
      | none => simp_all [stop, stopT, Outcome.state]
    | false =>
      cases hm : s.mcpServer with
      | some eng =>
        cases hc : env.mcpClose with
        | error e =>
          refine ⟨ci, ?_, hk⟩
          simp [stop, stopT, hr, hh, hm, hc, Outcome.state, hci]
        | ok u => simp_all [stop, stopT, Outcome.state]
      | none => simp_all [stop, stopT, Outcome.state]

/-- C10: in every state reachable by any sequence of controller operations
with arbitrary outcomes of the awaited steps, if the running flag is set then
the connection info is present and its transport tag equals the transport kind
fixed at construction. -/
theorem C10_running_invariant (options : McpServerOptions) (s : ServerState)
    (h : Reachable options s) : connInfoInvariant options s := by
  induction h with
  | init =>
    intro hrun
    simp [buildMCPServer] at hrun
  | register ts hs ih =>
    intro hrun
    rw [registerTools_isServerRunning] at hrun
    obtain ⟨ci, hci, hk⟩ := ih hrun
    exact ⟨ci, by rw [registerTools_connectionInfo]; exact hci, hk⟩
  | startStep env hs ih => exact start_preserves_connInfoInv options env _ ih
  | stopStep env hs ih => exact stop_preserves_connInfoInv options env _ ih

/-- C10 witness: the state reached by a successful http-mode `start` from the
initial state is running, and its connection info carries the http tag. -/
theorem C10_running_invariant_witness :
    ∃ ci, (Outcome.state (start optionsHttp envStartOk
        (buildMCPServer optionsHttp))).connectionInfo = some ci ∧
      ci.kind = optionsHttp.transport :=
  C10_running_invariant optionsHttp _
    (Reachable.startStep envStartOk Reachable.init) rfl

end McpUtils
